import Mathlib

/-!
# Verification of the Tesla tax tool's liability calculation engine

Shallow embedding of `src/tax_calculator.py` (class `TaxCalculator`):
the progressive bracket engine, the stacked long-term-capital-gain
computation, the NIIT surtax, ESPP disposition classification and the
ordinary/capital split, deduction selection, and the 1099-B loader.
Python floats are modelled as exact rationals (`ℚ`); `datetime` values
as proleptic-Gregorian calendar dates with Python's `toordinal` day
numbering, so that `(d2 - d1).days` becomes a difference of ordinals.
-/

namespace TaxTool

/-- One entry of the per-bracket detail list returned by the bracket
engine (`bracket_floor`, `rate`, income or gains in the bracket, and the
tax on that portion). -/
structure BracketDetail where
  bracket_floor : ℚ
  rate : ℚ
  amount_in_bracket : ℚ
  tax_in_bracket : ℚ
deriving Repr, DecidableEq

/-- Loop body of `calculate_progressive_ordinary_tax` (src/tax_calculator.py
lines 205-226): walk the brackets, peeking at the next threshold for the
width (the top bracket's width is the remaining income), taxing
`min(remaining, width)` at the bracket's rate, stopping once remaining
income is exhausted. -/
def progLoop : List (ℚ × ℚ) → ℚ → ℚ × List BracketDetail
  | [], _ => (0, [])
  | (threshold, rate) :: rest, remaining =>
    if remaining ≤ 0 then (0, [])
    else
      let width : ℚ :=
        match rest with
        | [] => remaining
        | (t2, _) :: _ => t2 - threshold
      let taxable := min remaining width
      let taxIn := taxable * rate
      let res := progLoop rest (remaining - taxable)
      (taxIn + res.1, ⟨threshold, rate, taxable, taxIn⟩ :: res.2)

/-- `calculate_progressive_ordinary_tax` (src/tax_calculator.py lines
190-228), parametrised by the active bracket schedule `self.tax_brackets`. -/
def calculate_progressive_ordinary_tax (brackets : List (ℚ × ℚ))
    (taxable_ordinary_income : ℚ) : ℚ × List BracketDetail :=
  if taxable_ordinary_income ≤ 0 then (0, [])
  else progLoop brackets taxable_ordinary_income

/-- Loop body of `calculate_progressive_ltcg_tax` (src/tax_calculator.py
lines 245-272): gains stack on top of `income_already_used`; a bracket
whose next threshold is at or below the amount already used is skipped
(`continue`); otherwise the bracket starts at
`max(threshold, income_already_used)` and the room up to the next
threshold (infinite for the top bracket) bounds the gains it takes. -/
def ltcgLoop : List (ℚ × ℚ) → ℚ → ℚ → ℚ × List BracketDetail
  | [], _, _ => (0, [])
  | (threshold, rate) :: rest, remaining, used =>
    if remaining ≤ 0 then (0, [])
    else
      match rest with
      | [] =>
        -- top bracket: next_threshold = +inf, so it is never skipped and
        -- bracket_room = inf - start swallows all remaining gains
        let taxable := remaining
        let taxIn := taxable * rate
        (taxIn, [⟨threshold, rate, taxable, taxIn⟩])
      | (t2, r2) :: rest2 =>
        if t2 ≤ used then ltcgLoop ((t2, r2) :: rest2) remaining used
        else
          let start := max threshold used
          let room := t2 - start
          let taxable := min remaining room
          let taxIn := taxable * rate
          let res := ltcgLoop ((t2, r2) :: rest2) (remaining - taxable) (used + taxable)
          (taxIn + res.1, ⟨threshold, rate, taxable, taxIn⟩ :: res.2)

/-- `calculate_progressive_ltcg_tax` (src/tax_calculator.py lines 230-274),
parametrised by `self.capital_gains_brackets`. -/
def calculate_progressive_ltcg_tax (brackets : List (ℚ × ℚ))
    (taxable_ordinary_income long_term_gains : ℚ) : ℚ × List BracketDetail :=
  if long_term_gains ≤ 0 then (0, [])
  else ltcgLoop brackets long_term_gains taxable_ordinary_income

/-- 2025 single-filer federal ordinary-income brackets
(`_use_2025_tax_brackets`, src/tax_calculator.py lines 92-95). -/
def tax_brackets_2025_single : List (ℚ × ℚ) :=
  [(0, 10/100), (11925, 12/100), (48475, 22/100), (103350, 24/100),
   (197300, 32/100), (250525, 35/100), (626350, 37/100)]

/-- 2025 single-filer long-term-capital-gain brackets
(src/tax_calculator.py line 110). -/
def capital_gains_brackets_2025_single : List (ℚ × ℚ) :=
  [(0, 0), (48350, 15/100), (533400, 20/100)]

/-- 2025 single-filer standard deduction (src/tax_calculator.py line 117). -/
def standard_deduction_2025_single : ℚ := 15000

/-- 2025 single-filer NIIT threshold (src/tax_calculator.py line 122). -/
def niit_threshold_2025_single : ℚ := 200000

/-- `self.niit_rate = 0.038` (src/tax_calculator.py line 42). -/
def niit_rate : ℚ := 38/1000

/-- `calculate_niit` (src/tax_calculator.py lines 276-283). -/
def calculate_niit (niit_threshold agi net_investment_income : ℚ) : ℚ :=
  let excess_agi := max 0 (agi - niit_threshold)
  let niit_base := min excess_agi net_investment_income
  niit_base * niit_rate

/-- A proleptic-Gregorian calendar date, modelling Python `datetime`
(date part only; all dates in the embedded code are midnight). -/
structure Date where
  year : Nat
  month : Nat
  day : Nat
deriving Repr, DecidableEq

/-- Gregorian leap-year rule, as used by Python's `datetime`. -/
def isLeapYear (y : Nat) : Bool :=
  (y % 4 == 0 && y % 100 != 0) || (y % 400 == 0)

/-- Number of days in the months strictly before `m` of year `y`. -/
def daysBeforeMonth (y m : Nat) : Nat :=
  let lens : List Nat :=
    [31, if isLeapYear y then 29 else 28, 31, 30, 31, 30, 31, 31, 30, 31, 30]
  (lens.take (m - 1)).foldl (· + ·) 0

/-- Python `date.toordinal`: day number of the date in the proleptic
Gregorian calendar, with 0001-01-01 ↦ 1. -/
def Date.toOrdinal (d : Date) : Nat :=
  let y := d.year - 1
  365 * y + y / 4 + y / 400 - y / 100 + daysBeforeMonth d.year d.month + d.day

/-- Python `(d2 - d1).days` for midnight datetimes: difference of ordinals. -/
def daysBetween (d1 d2 : Date) : ℤ :=
  (d2.toOrdinal : ℤ) - (d1.toOrdinal : ℤ)

/-- `is_long_term` (src/tax_calculator.py lines 465-467):
`(sold_date - acquired_date).days > 365`. -/
def is_long_term (acquired_date sold_date : Date) : Bool :=
  decide (365 < daysBetween acquired_date sold_date)

/-- `get_tesla_offer_date` (src/tax_calculator.py lines 469-485): purchases
in Jan/Feb come from the previous August offer, Mar-Aug from February of
the same year, Sep-Dec from August of the same year. -/
def get_tesla_offer_date (purchase_date : Date) : Date :=
  if purchase_date.month ≤ 2 then ⟨purchase_date.year - 1, 8, 1⟩
  else if purchase_date.month ≤ 8 then ⟨purchase_date.year, 2, 1⟩
  else ⟨purchase_date.year, 8, 1⟩

/-- `is_qualifying_espp_disposition` (src/tax_calculator.py lines 487-498):
at least 730 days from offer and at least 365 days from purchase. -/
def is_qualifying_espp_disposition (offer_date purchase_date sold_date : Date) : Bool :=
  decide (730 ≤ daysBetween offer_date sold_date) &&
    decide (365 ≤ daysBetween purchase_date sold_date)

/-- `calculate_marginal_tax_rate` (src/tax_calculator.py lines 175-180):
scan the brackets from the top; the first threshold strictly below the
income gives the rate, else the bottom bracket's rate. -/
def calculate_marginal_tax_rate (brackets : List (ℚ × ℚ)) (ordinary_income : ℚ) : ℚ :=
  match brackets.reverse.find? (fun p => decide (p.1 < ordinary_income)) with
  | some p => p.2
  | none => brackets.headI.2

/-- `calculate_capital_gains_rate` (src/tax_calculator.py lines 182-187):
same scan over the capital-gains brackets. -/
def calculate_capital_gains_rate (cg_brackets : List (ℚ × ℚ)) (ordinary_income : ℚ) : ℚ :=
  match cg_brackets.reverse.find? (fun p => decide (p.1 < ordinary_income)) with
  | some p => p.2
  | none => cg_brackets.headI.2

/-- Price-dependent inputs of `calculate_espp_taxes`: the stock row
(`Date Acquired`, `Sellable Qty.`), the sale, and the two historical
prices that the Python code fetches through `get_stock_price` (external
lookups, supplied here as inputs; a failed lookup is price 0). -/
structure EsppInput where
  purchase_date : Date
  sold_date : Date
  shares : ℚ
  sold_price : ℚ
  offer_price : ℚ
  purchase_date_price : ℚ
deriving Repr, DecidableEq

/-- The fields of the dict returned by `calculate_espp_taxes`
(src/tax_calculator.py lines 710-727). -/
structure EsppResult where
  offer_date : Date
  acquisition_price : ℚ
  proceeds : ℚ
  total_gain : ℚ
  is_qualifying : Bool
  is_long_term : Bool
  tax_type : String
  tax_amount : ℚ
  ordinary_income_portion : ℚ
  capital_gain_portion : ℚ
deriving Repr, DecidableEq

/-- `calculate_espp_taxes` (src/tax_calculator.py lines 644-727), with the
two historical prices passed in. Returns `none` when either price lookup
failed (price 0), mirroring the `return None` branch. -/
def calculate_espp_taxes (brackets cg_brackets : List (ℚ × ℚ)) (inp : EsppInput)
    (ordinary_income : ℚ) : Option EsppResult :=
  let offer_date := get_tesla_offer_date inp.purchase_date
  if inp.offer_price = 0 ∨ inp.purchase_date_price = 0 then none
  else
    let lower_price := min inp.offer_price inp.purchase_date_price
    let espp_purchase_price := lower_price * (85/100)
    let purchase_value := espp_purchase_price * inp.shares
    let proceeds := inp.shares * inp.sold_price
    let total_gain := proceeds - purchase_value
    let is_qual := is_qualifying_espp_disposition offer_date inp.purchase_date inp.sold_date
    -- (tax_type, ordinary_income_portion, capital_gain_portion, total_tax)
    let branch : String × ℚ × ℚ × ℚ :=
      if is_qual then
        let discount_amount := (lower_price - espp_purchase_price) * inp.shares
        let ordinary_income_portion := min discount_amount total_gain
        let capital_gain_portion := max 0 (total_gain - ordinary_income_portion)
        let ordinary_tax :=
          ordinary_income_portion * calculate_marginal_tax_rate brackets ordinary_income
        let capital_gains_tax :=
          capital_gain_portion * calculate_capital_gains_rate cg_brackets ordinary_income
        ("Qualifying ESPP", ordinary_income_portion, capital_gain_portion,
          ordinary_tax + capital_gains_tax)
      else
        let discount_amount := (inp.purchase_date_price - espp_purchase_price) * inp.shares
        let ordinary_income_portion := discount_amount
        let capital_gain_portion := max 0 (total_gain - ordinary_income_portion)
        let ordinary_tax :=
          ordinary_income_portion * calculate_marginal_tax_rate brackets ordinary_income
        let is_long_term_holding := is_long_term inp.purchase_date inp.sold_date
        if is_long_term_holding then
          let capital_gains_tax :=
            capital_gain_portion * calculate_capital_gains_rate cg_brackets ordinary_income
          ("Disqualifying ESPP (LT Capital Gains)", ordinary_income_portion,
            capital_gain_portion, ordinary_tax + capital_gains_tax)
        else
          let capital_gains_tax :=
            capital_gain_portion * calculate_marginal_tax_rate brackets ordinary_income
          ("Disqualifying ESPP (ST Capital Gains)", ordinary_income_portion,
            capital_gain_portion, ordinary_tax + capital_gains_tax)
    some
      { offer_date := offer_date
        acquisition_price := espp_purchase_price
        proceeds := proceeds
        total_gain := total_gain
        is_qualifying := is_qual
        is_long_term := is_qual || is_long_term inp.purchase_date inp.sold_date
        tax_type := branch.1
        tax_amount := branch.2.2.2
        ordinary_income_portion := branch.2.1
        capital_gain_portion := branch.2.2.1 }

/-- One parsed row of the 1099-B CSV consumed by `load_1099b_data`
(src/tax_calculator.py lines 1318-1349): the `Term` string, the two dates
(already parsed from their `%m/%d/%y` strings), and the monetary columns.
`wash_sale` holds `float(row.get('Wash Sale Disallowed', 0) or 0)`. -/
structure Row1099B where
  term : String
  date_sold : Date
  date_acquired : Date
  proceeds : ℚ
  cost_basis : ℚ
  wash_sale : ℚ
  gain_loss : ℚ
  grant_number : String
  shares : ℚ
  form_8949_box : String
deriving Repr, DecidableEq

/-- The fields of one stock-result dict built by `load_1099b_data`
(src/tax_calculator.py lines 1351-1374), also the shape consumed by
`calculate_total_tax_liability` step 1. -/
structure StockResult where
  stock_type : String
  acquired_date : Date
  sold_date : Date
  shares : ℚ
  acquisition_price : ℚ
  sold_price : ℚ
  proceeds : ℚ
  cost_basis : ℚ
  total_gain : ℚ
  raw_gain : ℚ
  wash_sale_disallowed : ℚ
  is_long_term : Bool
  tax_type : String
  tax_rate : ℚ
  tax_amount : ℚ
  ordinary_income_portion : ℚ
  capital_gain_portion : ℚ
  grant_number : String
  form_8949_box : String
  actually_sold : Bool
  source : String
deriving Repr

/-- The literal string "long" tested by `load_1099b_data`'s term check. -/
def longTermMarker : String := "long"

/-- Loop body of `load_1099b_data` (src/tax_calculator.py lines 1334-1376):
one CSV row becomes one stock-result record, with
`taxable_gain = raw_gain + wash_sale` (the wash-sale-disallowed loss is
added back). -/
def load_1099b_row (row : Row1099B) : StockResult :=
  let is_long := (row.term.trim.toLower).startsWith longTermMarker
  let raw_gain := row.gain_loss
  let taxable_gain := raw_gain + row.wash_sale
  { stock_type := "RSU"
    acquired_date := row.date_acquired
    sold_date := row.date_sold
    shares := row.shares
    acquisition_price := if 0 < row.shares then row.cost_basis / row.shares else 0
    sold_price := if 0 < row.shares then row.proceeds / row.shares else 0
    proceeds := row.proceeds
    cost_basis := row.cost_basis
    total_gain := taxable_gain
    raw_gain := raw_gain
    wash_sale_disallowed := row.wash_sale
    is_long_term := is_long
    tax_type := if is_long then "Long Term Capital Gains"
      else "Short Term Capital Gains (Ordinary Income)"
    tax_rate := 0
    tax_amount := 0
    ordinary_income_portion := 0
    capital_gain_portion := taxable_gain
    grant_number := row.grant_number
    form_8949_box := row.form_8949_box
    actually_sold := true
    source := "1099-B" }

/-- `load_1099b_data` (src/tax_calculator.py lines 1318-1377) on
already-parsed CSV rows. -/
def load_1099b_data (rows : List Row1099B) : List StockResult :=
  rows.map load_1099b_row

/-- The per-(year, filing-status) configuration a `TaxCalculator` instance
carries into `calculate_total_tax_liability`. -/
structure TaxConfig where
  tax_brackets : List (ℚ × ℚ)
  capital_gains_brackets : List (ℚ × ℚ)
  standard_deduction : ℚ
  niit_threshold : ℚ

/-- The 2025 single-filer configuration set by `_use_2025_tax_brackets`. -/
def config_2025_single : TaxConfig :=
  { tax_brackets := tax_brackets_2025_single
    capital_gains_brackets := capital_gains_brackets_2025_single
    standard_deduction := standard_deduction_2025_single
    niit_threshold := niit_threshold_2025_single }

/-- The fields of the dict returned by `calculate_total_tax_liability`
(src/tax_calculator.py lines 1037-1080). -/
structure LiabilityResult where
  w2_wages : ℚ
  stock_ordinary_income : ℚ
  stock_short_term_gains : ℚ
  stock_long_term_gains : ℚ
  interest_income : ℚ
  net_rental_income : ℚ
  total_ordinary_income : ℚ
  total_long_term_gains : ℚ
  agi : ℚ
  deduction_type : String
  deduction_amount : ℚ
  taxable_ordinary_income : ℚ
  taxable_ltcg : ℚ
  total_taxable_income : ℚ
  ordinary_tax : ℚ
  ordinary_tax_brackets : List BracketDetail
  ltcg_tax : ℚ
  ltcg_tax_brackets : List BracketDetail
  niit : ℚ
  net_investment_income : ℚ
  total_tax_liability : ℚ
  federal_tax_withheld : ℚ
  stock_tax_withheld : ℚ
  estimated_payments : ℚ
  total_payments : ℚ
  net_tax_due : ℚ
  refund : ℚ
  marginal_ordinary_rate : ℚ
  marginal_ltcg_rate : ℚ

/-- `calculate_total_tax_liability` (src/tax_calculator.py lines 949-1080).
`rental_result` stands for the optional rental dict through its
`net_rental_income` field, `itemized_result` for the optional Schedule A
dict through its `total_itemized` field. The `effective_tax_rate`
presentation field is omitted. -/
def calculate_total_tax_liability (cfg : TaxConfig) (w2_wages federal_tax_withheld : ℚ)
    (stock_results : List StockResult) (deduction_amount : Option ℚ)
    (estimated_payments stock_tax_withheld interest_income : ℚ)
    (rental_result itemized_result : Option ℚ) : LiabilityResult :=
  -- Step 1: classify stock results
  let stock_ordinary_income := (stock_results.map (·.ordinary_income_portion)).sum
  let stock_long_term_gains :=
    ((stock_results.filter (·.is_long_term)).map (·.capital_gain_portion)).sum
  let stock_short_term_gains :=
    ((stock_results.filter (fun r => !r.is_long_term)).map (·.capital_gain_portion)).sum
  -- Step 2: aggregate income
  let net_rental_income := rental_result.getD 0
  let total_ordinary_income := w2_wages + stock_ordinary_income +
    stock_short_term_gains + interest_income + net_rental_income
  let total_long_term_gains := stock_long_term_gains
  let agi := total_ordinary_income + total_long_term_gains
  -- Step 3: determine deduction (itemized vs standard)
  let dedPair : ℚ × String :=
    match itemized_result with
    | some itemized_total =>
      if cfg.standard_deduction < itemized_total then (itemized_total, "Itemized")
      else (cfg.standard_deduction, "Standard (exceeds itemized)")
    | none =>
      match deduction_amount with
      | some d => (d, "Itemized")
      | none => (cfg.standard_deduction, "Standard")
  let deduction := dedPair.1
  let taxable_ordinary_income := max 0 (total_ordinary_income - deduction)
  let excess_deduction := max 0 (deduction - total_ordinary_income)
  let taxable_ltcg := max 0 (total_long_term_gains - excess_deduction)
  -- Step 4: progressive taxes, NIIT
  let ordinaryRes := calculate_progressive_ordinary_tax cfg.tax_brackets taxable_ordinary_income
  let ltcgRes :=
    calculate_progressive_ltcg_tax cfg.capital_gains_brackets taxable_ordinary_income taxable_ltcg
  let net_investment_income := total_long_term_gains + stock_short_term_gains +
    interest_income + max 0 net_rental_income
  let niit := calculate_niit cfg.niit_threshold agi net_investment_income
  let total_tax := ordinaryRes.1 + ltcgRes.1 + niit
  -- Step 5: net due / refund
  let total_payments := federal_tax_withheld + estimated_payments + stock_tax_withheld
  let net_due := total_tax - total_payments
  { w2_wages := w2_wages
    stock_ordinary_income := stock_ordinary_income
    stock_short_term_gains := stock_short_term_gains
    stock_long_term_gains := stock_long_term_gains
    interest_income := interest_income
    net_rental_income := net_rental_income
    total_ordinary_income := total_ordinary_income
    total_long_term_gains := total_long_term_gains
    agi := agi
    deduction_type := dedPair.2
    deduction_amount := deduction
    taxable_ordinary_income := taxable_ordinary_income
    taxable_ltcg := taxable_ltcg
    total_taxable_income := taxable_ordinary_income + taxable_ltcg
    ordinary_tax := ordinaryRes.1
    ordinary_tax_brackets := ordinaryRes.2
    ltcg_tax := ltcgRes.1
    ltcg_tax_brackets := ltcgRes.2
    niit := niit
    net_investment_income := net_investment_income
    total_tax_liability := total_tax
    federal_tax_withheld := federal_tax_withheld
    stock_tax_withheld := stock_tax_withheld
    estimated_payments := estimated_payments
    total_payments := total_payments
    net_tax_due := max 0 net_due
    refund := max 0 (-net_due)
    marginal_ordinary_rate := calculate_marginal_tax_rate cfg.tax_brackets taxable_ordinary_income
    marginal_ltcg_rate :=
      calculate_capital_gains_rate cfg.capital_gains_brackets taxable_ordinary_income }

/-- The comparison on bracket entries: strictly ascending thresholds
(the `TaxYearProfile` invariant every schedule in the program satisfies). -/
def FloorLt (a b : ℚ × ℚ) : Prop := a.1 < b.1

instance : DecidableRel FloorLt := fun a b => inferInstanceAs (Decidable (a.1 < b.1))

/-- The claim's description of the progressive walk, as a closed form:
each bracket taxes the slice of the income `x` lying between its floor
and the next threshold (the top bracket reaches up to `x` itself). -/
def bracketSum : List (ℚ × ℚ) → ℚ → ℚ
  | [], _ => 0
  | (t, r) :: rest, x =>
    let upper : ℚ := match rest with | [] => x | (t2, _) :: _ => t2
    (min x upper - min x t) * r + bracketSum rest x

lemma progLoop_cons (t r : ℚ) (rest : List (ℚ × ℚ)) (rem : ℚ) :
    progLoop ((t, r) :: rest) rem =
      if rem ≤ 0 then ((0 : ℚ), ([] : List BracketDetail))
      else
        let width : ℚ := match rest with | [] => rem | (t2, _) :: _ => t2 - t
        let taxable := min rem width
        let taxIn := taxable * r
        let res := progLoop rest (rem - taxable)
        (taxIn + res.1, ⟨t, r, taxable, taxIn⟩ :: res.2) := rfl

lemma progLoop_nonpos (brackets : List (ℚ × ℚ)) (rem : ℚ) (h : rem ≤ 0) :
    progLoop brackets rem = (0, []) := by
  cases brackets with
  | nil => rfl
  | cons p rest => obtain ⟨t, r⟩ := p; rw [progLoop_cons, if_pos h]

lemma ltcgLoop_cons_cons (t r t2 r2 : ℚ) (rest : List (ℚ × ℚ)) (rem used : ℚ) :
    ltcgLoop ((t, r) :: (t2, r2) :: rest) rem used =
      if rem ≤ 0 then ((0 : ℚ), ([] : List BracketDetail))
      else if t2 ≤ used then ltcgLoop ((t2, r2) :: rest) rem used
      else
        let start := max t used
        let room := t2 - start
        let taxable := min rem room
        let taxIn := taxable * r
        let res := ltcgLoop ((t2, r2) :: rest) (rem - taxable) (used + taxable)
        (taxIn + res.1, ⟨t, r, taxable, taxIn⟩ :: res.2) := rfl

lemma ltcgLoop_singleton (t r : ℚ) (rem used : ℚ) :
    ltcgLoop [(t, r)] rem used =
      if rem ≤ 0 then ((0 : ℚ), ([] : List BracketDetail))
      else (rem * r, [⟨t, r, rem, rem * r⟩]) := rfl

lemma ltcgLoop_nonpos (brackets : List (ℚ × ℚ)) (rem used : ℚ) (h : rem ≤ 0) :
    ltcgLoop brackets rem used = (0, []) := by
  cases brackets with
  | nil => rfl
  | cons p rest =>
    obtain ⟨t, r⟩ := p
    cases rest with
    | nil => rw [ltcgLoop_singleton, if_pos h]
    | cons q rest2 => obtain ⟨t2, r2⟩ := q; rw [ltcgLoop_cons_cons, if_pos h]

/-- When the income `x` lies at or below every bracket floor, the closed
form vanishes. -/
lemma bracketSum_of_le : ∀ (brackets : List (ℚ × ℚ)) (x : ℚ),
    (∀ p ∈ brackets, x ≤ p.1) → bracketSum brackets x = 0
  | [], _, _ => rfl
  | (t, r) :: rest, x, h => by
    have ht : x ≤ t := h (t, r) (List.mem_cons_self _ _)
    have hrest := bracketSum_of_le rest x (fun p hp => h p (List.mem_cons_of_mem _ hp))
    cases rest with
    | nil => simp [bracketSum, min_eq_left ht, min_self]
    | cons q rest2 =>
      obtain ⟨t2, r2⟩ := q
      have ht2 : x ≤ t2 := h (t2, r2) (by simp)
      simp [bracketSum, min_eq_left ht, min_eq_left ht2] at hrest ⊢
      exact hrest

/-- Closed form on a single bracket. -/
lemma bracketSum_singleton (t r x : ℚ) : bracketSum [(t, r)] x = (x - min x t) * r := by
  show (min x x - min x t) * r + 0 = (x - min x t) * r
  rw [min_self, add_zero]

lemma bracketSum_cons_cons (t r t2 r2 : ℚ) (rest : List (ℚ × ℚ)) (x : ℚ) :
    bracketSum ((t, r) :: (t2, r2) :: rest) x =
      (min x t2 - min x t) * r + bracketSum ((t2, r2) :: rest) x := rfl

/-- The progressive walk starting at the head bracket's floor `t`, on
remaining income `x - t`, computes the closed-form slice sum over a
strictly-ascending schedule. -/
lemma progLoop_closed : ∀ (rest : List (ℚ × ℚ)) (t r x : ℚ),
    List.Pairwise FloorLt ((t, r) :: rest) →
    (progLoop ((t, r) :: rest) (x - t)).1 = bracketSum ((t, r) :: rest) x := by
  intro rest
  induction rest with
  | nil =>
    intro t r x _
    rw [progLoop_cons]
    by_cases hx : x - t ≤ 0
    · rw [if_pos hx, bracketSum_singleton, min_eq_left (by linarith : x ≤ t)]
      show (0 : ℚ) = (x - x) * r
      ring
    · rw [if_neg hx, bracketSum_singleton, min_eq_right (by linarith : t ≤ x)]
      show min (x - t) (x - t) * r + (progLoop [] (x - t - min (x - t) (x - t))).1 = (x - t) * r
      rw [min_self]
      show (x - t) * r + (0 : ℚ) = (x - t) * r
      ring
  | cons q rest2 ih =>
    intro t r x hpw
    obtain ⟨t2, r2⟩ := q
    have hpw2 := List.pairwise_cons.mp hpw
    have htt2 : t < t2 := hpw2.1 (t2, r2) (by simp)
    by_cases hx : x - t ≤ 0
    · have ht : x ≤ t := by linarith
      have hall : ∀ p ∈ (t, r) :: (t2, r2) :: rest2, x ≤ p.1 := by
        intro p hp
        rcases List.mem_cons.mp hp with h | h
        · rw [h]; exact ht
        · have := hpw2.1 p h
          dsimp [FloorLt] at this
          linarith
      rw [progLoop_cons, if_pos hx, bracketSum_of_le _ _ hall]
    · have ht : t ≤ x := by linarith
      have htaxable : min (x - t) (t2 - t) = min x t2 - t := by
        rcases le_total x t2 with h | h
        · rw [min_eq_left (by linarith), min_eq_left h]
        · rw [min_eq_right (by linarith), min_eq_right h]
      rw [progLoop_cons, if_neg hx, bracketSum_cons_cons, min_eq_right ht]
      show min (x - t) (t2 - t) * r +
          (progLoop ((t2, r2) :: rest2) (x - t - min (x - t) (t2 - t))).1 =
        (min x t2 - t) * r + bracketSum ((t2, r2) :: rest2) x
      rw [htaxable]
      have hrem : x - t - (min x t2 - t) = x - min x t2 := by ring
      rw [hrem]
      rcases le_total t2 x with h2 | h2
      · rw [min_eq_right h2, ih t2 r2 x hpw2.2]
      · rw [min_eq_left h2, progLoop_nonpos _ _ (by linarith : x - x ≤ 0)]
        have hall2 : ∀ p ∈ (t2, r2) :: rest2, x ≤ p.1 := by
          intro p hp
          rcases List.mem_cons.mp hp with h | h
          · rw [h]; exact h2
          · have := (List.pairwise_cons.mp hpw2.2).1 p h
            dsimp [FloorLt] at this
            linarith
        rw [bracketSum_of_le _ _ hall2]

/-- Stacking on a base that sits at or below the head bracket's floor,
over a strictly-ascending schedule, is the plain progressive walk. -/
lemma ltcgLoop_eq_progLoop : ∀ (brackets : List (ℚ × ℚ)) (rem used : ℚ),
    List.Pairwise FloorLt brackets →
    (∀ p ∈ brackets.head?, used ≤ p.1) →
    ltcgLoop brackets rem used = progLoop brackets rem := by
  intro brackets
  induction brackets with
  | nil => intro rem used _ _; rfl
  | cons p rest ih =>
    intro rem used hpw hhead
    obtain ⟨t, r⟩ := p
    have ht : used ≤ t := hhead (t, r) (by simp)
    by_cases hrem : rem ≤ 0
    · rw [ltcgLoop_nonpos _ _ _ hrem, progLoop_nonpos _ _ hrem]
    · cases rest with
      | nil =>
        rw [ltcgLoop_singleton, if_neg hrem, progLoop_cons, if_neg hrem]
        simp [min_self, progLoop]
      | cons q rest2 =>
        obtain ⟨t2, r2⟩ := q
        have hpw2 := List.pairwise_cons.mp hpw
        have htt2 : t < t2 := hpw2.1 (t2, r2) (by simp)
        have hskip : ¬ t2 ≤ used := by linarith
        have htaxable : min rem (t2 - t) ≤ t2 - t := min_le_right _ _
        have hrec := ih (rem - min rem (t2 - t)) (used + min rem (t2 - t)) hpw2.2
          (by intro p hp
              simp only [List.head?_cons, Option.mem_def, Option.some.injEq] at hp
              rw [← hp]
              show used + min rem (t2 - t) ≤ t2
              linarith)
        rw [ltcgLoop_cons_cons, if_neg hrem, if_neg hskip, progLoop_cons, if_neg hrem]
        simp only [max_eq_left ht]
        rw [hrec]

/-- One skipped bracket: when the next threshold is at or below the
amount already used, the loop moves on without taxing anything. -/
lemma ltcgLoop_cons_skip (t r t2 r2 : ℚ) (rest : List (ℚ × ℚ)) (rem used : ℚ)
    (h : t2 ≤ used) :
    ltcgLoop ((t, r) :: (t2, r2) :: rest) rem used = ltcgLoop ((t2, r2) :: rest) rem used := by
  by_cases hrem : rem ≤ 0
  · rw [ltcgLoop_nonpos _ _ _ hrem, ltcgLoop_nonpos _ _ _ hrem]
  · rw [ltcgLoop_cons_cons, if_neg hrem, if_pos h]

/-- A whole prefix of brackets sitting below the stacking point is
skipped entirely. -/
lemma ltcgLoop_skip_append : ∀ (pre : List (ℚ × ℚ)) (q : ℚ × ℚ) (rest : List (ℚ × ℚ))
    (rem used : ℚ), q.1 ≤ used → (∀ p ∈ pre, p.1 ≤ used) →
    ltcgLoop (pre ++ q :: rest) rem used = ltcgLoop (q :: rest) rem used
  | [], _, _, _, _, _, _ => rfl
  | (u, s) :: pre2, q, rest, rem, used, hq, hpre => by
    have hrec := ltcgLoop_skip_append pre2 q rest rem used hq
      (fun p hp => hpre p (List.mem_cons_of_mem _ hp))
    rw [List.cons_append]
    cases pre2 with
    | nil =>
      obtain ⟨tq, rq⟩ := q
      rw [List.nil_append] at hrec ⊢
      exact (ltcgLoop_cons_skip u s tq rq rest rem used hq).trans hrec
    | cons v pre3 =>
      obtain ⟨tv, rv⟩ := v
      have hv : tv ≤ used := hpre (tv, rv) (by simp)
      rw [List.cons_append]
      rw [List.cons_append] at hrec
      exact (ltcgLoop_cons_skip u s tv rv (pre3 ++ q :: rest) rem used hv).trans hrec

/-- Monotonicity of the deduction application: a smaller deduction never
produces a smaller total taxable income. -/
lemma taxable_income_antitone (o l d s : ℚ) (h : d ≤ s) :
    max 0 (o - s) + max 0 (l - max 0 (s - o)) ≤ max 0 (o - d) + max 0 (l - max 0 (d - o)) := by
  have h1 : max 0 (o - s) ≤ max 0 (o - d) := max_le_max (le_refl 0) (by linarith)
  have h2 : max 0 (d - o) ≤ max 0 (s - o) := max_le_max (le_refl 0) (by linarith)
  have h3 : max 0 (l - max 0 (s - o)) ≤ max 0 (l - max 0 (d - o)) :=
    max_le_max (le_refl 0) (by linarith)
  linarith

/-- C1: for every bracket schedule and every income x ≤ 0 the progressive
computation returns tax 0 and an empty detail list; for every
strictly-ascending schedule whose bottom floor is 0 it computes the
ascending walk that taxes min(remaining, width) in each bracket at that
bracket's rate, stopping when income is exhausted (stated as the closed
slice-sum form `bracketSum`); and on the 2025 single-filer schedule,
taxable ordinary income $100,000 yields tax exactly $16,914.00, from
$11,925 at 10%, $36,550 at 12% and $51,525 at 22%. -/
theorem claim_C1_progressive_ordinary_tax :
    (∀ (brackets : List (ℚ × ℚ)) (x : ℚ), x ≤ 0 →
      calculate_progressive_ordinary_tax brackets x = (0, [])) ∧
    (∀ (brackets : List (ℚ × ℚ)) (x : ℚ),
      List.Pairwise FloorLt brackets → (∀ p ∈ brackets.head?, p.1 = 0) →
      (calculate_progressive_ordinary_tax brackets x).1 = bracketSum brackets x) ∧
    calculate_progressive_ordinary_tax tax_brackets_2025_single 100000 =
      (16914, [⟨0, 10/100, 11925, 1192.5⟩, ⟨11925, 12/100, 36550, 4386⟩,
               ⟨48475, 22/100, 51525, 11335.5⟩]) := by
  refine ⟨?_, ?_, ?_⟩
  · intro brackets x hx
    simp [calculate_progressive_ordinary_tax, hx]
  · intro brackets x hpw hhead
    cases brackets with
    | nil =>
      by_cases hx : x ≤ 0 <;>
        simp [calculate_progressive_ordinary_tax, bracketSum, hx, progLoop]
    | cons p rest =>
      obtain ⟨t, r⟩ := p
      have ht0 : t = 0 := hhead (t, r) (by simp)
      subst ht0
      by_cases hx : x ≤ 0
      · have hall : ∀ q ∈ ((0 : ℚ), r) :: rest, x ≤ q.1 := by
          intro q hq
          rcases List.mem_cons.mp hq with h | h
          · rw [h]; exact hx
          · have := (List.pairwise_cons.mp hpw).1 q h
            dsimp [FloorLt] at this
            linarith
        rw [calculate_progressive_ordinary_tax, if_pos hx, bracketSum_of_le _ _ hall]
      · rw [calculate_progressive_ordinary_tax, if_neg hx]
        have h := progLoop_closed rest 0 r x hpw
        rw [sub_zero] at h
        exact h
  · norm_num [calculate_progressive_ordinary_tax, tax_brackets_2025_single, progLoop]

/-- Witness for C1 at concrete inputs: income −5 gives (0, []), and the
2025 single-filer schedule satisfies the closed-form characterisation at
income $100,000. -/
theorem claim_C1_witness :
    calculate_progressive_ordinary_tax tax_brackets_2025_single (-5) = (0, []) ∧
    (calculate_progressive_ordinary_tax tax_brackets_2025_single 100000).1 =
      bracketSum tax_brackets_2025_single 100000 :=
  ⟨claim_C1_progressive_ordinary_tax.1 tax_brackets_2025_single (-5) (by norm_num),
   claim_C1_progressive_ordinary_tax.2.1 tax_brackets_2025_single 100000
     (by norm_num [tax_brackets_2025_single, List.pairwise_cons, FloorLt])
     (by intro p hp
         simp only [tax_brackets_2025_single, List.head?_cons, Option.mem_def,
           Option.some.injEq] at hp
         simp [← hp])⟩

/-- C2: gains stack on top of the ordinary-income base; every bracket
whose upper edge (the next threshold) lies at or below the stacking point
is skipped entirely, so the computation coincides with the one on the
suffix starting at the first bracket reaching above the base; and with
the 2025 single-filer LTCG schedule, base $100,000 and gains $50,000
yield tax exactly $7,500.00, all of it at 15%. -/
theorem claim_C2_ltcg_stacking :
    (∀ (pre : List (ℚ × ℚ)) (t r t2 r2 : ℚ) (post : List (ℚ × ℚ)) (b g : ℚ),
      List.Pairwise FloorLt (pre ++ (t, r) :: (t2, r2) :: post) → t2 ≤ b →
      calculate_progressive_ltcg_tax (pre ++ (t, r) :: (t2, r2) :: post) b g =
        calculate_progressive_ltcg_tax ((t2, r2) :: post) b g) ∧
    calculate_progressive_ltcg_tax capital_gains_brackets_2025_single 100000 50000 =
      (7500, [⟨48350, 15/100, 50000, 7500⟩]) := by
  constructor
  · intro pre t r t2 r2 post b g hpw ht2b
    by_cases hg : g ≤ 0
    · simp [calculate_progressive_ltcg_tax, hg]
    · simp only [calculate_progressive_ltcg_tax, if_neg hg]
      have happ : pre ++ (t, r) :: (t2, r2) :: post = (pre ++ [(t, r)]) ++ (t2, r2) :: post := by
        simp
      rw [happ]
      apply ltcgLoop_skip_append
      · exact ht2b
      · intro p hp
        rw [happ] at hpw
        have hlt := (List.pairwise_append.mp hpw).2.2 p hp (t2, r2) (by simp)
        dsimp [FloorLt] at hlt
        linarith
  · norm_num [calculate_progressive_ltcg_tax, capital_gains_brackets_2025_single, ltcgLoop]

/-- Witness for C2: with the 2025 single-filer LTCG schedule and base
$100,000 the 0% bracket (upper edge $48,350 ≤ base) is skipped entirely. -/
theorem claim_C2_witness :
    calculate_progressive_ltcg_tax
        ([] ++ ((0 : ℚ), (0 : ℚ)) :: ((48350 : ℚ), (15/100 : ℚ)) :: [((533400 : ℚ), (20/100 : ℚ))])
        100000 50000 =
      calculate_progressive_ltcg_tax (((48350 : ℚ), (15/100 : ℚ)) :: [((533400 : ℚ), (20/100 : ℚ))])
        100000 50000 :=
  claim_C2_ltcg_stacking.1 [] 0 0 48350 (15/100) [(533400, 20/100)] 100000 50000
    (by norm_num [List.pairwise_cons, FloorLt]) (by norm_num)

/-- C8: stacking a zero or negative gains amount returns (0, []) for any
base and schedule; and stacking gains on a base of 0 over a
strictly-ascending schedule with non-negative bottom floor gives exactly
the plain progressive computation on the same schedule. -/
theorem claim_C8_stacking_invariant :
    (∀ (brackets : List (ℚ × ℚ)) (x g : ℚ), g ≤ 0 →
      calculate_progressive_ltcg_tax brackets x g = (0, [])) ∧
    (∀ (brackets : List (ℚ × ℚ)) (y : ℚ),
      List.Pairwise FloorLt brackets → (∀ p ∈ brackets.head?, 0 ≤ p.1) →
      calculate_progressive_ltcg_tax brackets 0 y =
        calculate_progressive_ordinary_tax brackets y) := by
  constructor
  · intro brackets x g hg
    simp [calculate_progressive_ltcg_tax, hg]
  · intro brackets y hpw hhead
    by_cases hy : y ≤ 0
    · simp [calculate_progressive_ltcg_tax, calculate_progressive_ordinary_tax, hy]
    · simp only [calculate_progressive_ltcg_tax, calculate_progressive_ordinary_tax, if_neg hy]
      exact ltcgLoop_eq_progLoop brackets y 0 hpw hhead

/-- Witness for C8 on the 2025 single-filer LTCG schedule: gains −3 give
(0, []) on base $12,345, and gains $60,000 on base 0 match the plain
progressive computation. -/
theorem claim_C8_witness :
    calculate_progressive_ltcg_tax capital_gains_brackets_2025_single 12345 (-3) = (0, []) ∧
    calculate_progressive_ltcg_tax capital_gains_brackets_2025_single 0 60000 =
      calculate_progressive_ordinary_tax capital_gains_brackets_2025_single 60000 :=
  ⟨claim_C8_stacking_invariant.1 capital_gains_brackets_2025_single 12345 (-3) (by norm_num),
   claim_C8_stacking_invariant.2 capital_gains_brackets_2025_single 60000
     (by norm_num [capital_gains_brackets_2025_single, List.pairwise_cons, FloorLt])
     (by intro p hp
         simp only [capital_gains_brackets_2025_single, List.head?_cons, Option.mem_def,
           Option.some.injEq] at hp
         simp [← hp])⟩

/-- C3 (with the scenario corrected): the inferred ESPP offer date is
August 1 of the prior year for purchase months 1–2, February 1 of the
purchase year for months 3–8, and August 1 of the purchase year for
months 9–12; a disposition is qualifying iff (sale − offer) ≥ 730 days
and (sale − purchase) ≥ 365 days; and the purchase 2024-02-29 sold
2025-10-23 has 814 days from its 2023-08-01 offer and 602 days from
purchase, hence is a QUALIFYING disposition with a long-term holding
period. -/
theorem claim_C3_espp_disposition_rules :
    (∀ p : Date,
      (p.month ≤ 2 → get_tesla_offer_date p = ⟨p.year - 1, 8, 1⟩) ∧
      (2 < p.month → p.month ≤ 8 → get_tesla_offer_date p = ⟨p.year, 2, 1⟩) ∧
      (8 < p.month → get_tesla_offer_date p = ⟨p.year, 8, 1⟩)) ∧
    (∀ offer purchase sold : Date,
      is_qualifying_espp_disposition offer purchase sold = true ↔
        730 ≤ daysBetween offer sold ∧ 365 ≤ daysBetween purchase sold) ∧
    (get_tesla_offer_date ⟨2024, 2, 29⟩ = ⟨2023, 8, 1⟩ ∧
      daysBetween ⟨2023, 8, 1⟩ ⟨2025, 10, 23⟩ = 814 ∧
      daysBetween ⟨2024, 2, 29⟩ ⟨2025, 10, 23⟩ = 602 ∧
      is_qualifying_espp_disposition ⟨2023, 8, 1⟩ ⟨2024, 2, 29⟩ ⟨2025, 10, 23⟩ = true ∧
      is_long_term ⟨2024, 2, 29⟩ ⟨2025, 10, 23⟩ = true) := by
  refine ⟨?_, ?_, by decide⟩
  · intro p
    refine ⟨fun h => ?_, fun h1 h2 => ?_, fun h => ?_⟩
    · rw [get_tesla_offer_date, if_pos h]
    · rw [get_tesla_offer_date, if_neg (by omega), if_pos h2]
    · rw [get_tesla_offer_date, if_neg (by omega), if_neg (by omega)]
  · intro offer purchase sold
    simp [is_qualifying_espp_disposition]

/-- Refutation of C3's concrete scenario: the 2024-02-29 purchase sold
2025-10-23 is a QUALIFYING disposition (814 ≥ 730 days from the inferred
offer, 602 ≥ 365 days from purchase), not a disqualifying one with a
short-term remainder. -/
theorem claim_C3_counterexample :
    is_qualifying_espp_disposition (get_tesla_offer_date ⟨2024, 2, 29⟩) ⟨2024, 2, 29⟩
        ⟨2025, 10, 23⟩ = true ∧
    ¬ daysBetween (get_tesla_offer_date ⟨2024, 2, 29⟩) ⟨2025, 10, 23⟩ < 730 ∧
    ¬ daysBetween ⟨2024, 2, 29⟩ ⟨2025, 10, 23⟩ < 365 ∧
    is_long_term ⟨2024, 2, 29⟩ ⟨2025, 10, 23⟩ = true := by decide

/-- Witness for C3 on one purchase date in each offer-period band. -/
theorem claim_C3_witness :
    get_tesla_offer_date ⟨2024, 2, 29⟩ = ⟨2023, 8, 1⟩ ∧
    get_tesla_offer_date ⟨2024, 5, 1⟩ = ⟨2024, 2, 1⟩ ∧
    get_tesla_offer_date ⟨2024, 9, 1⟩ = ⟨2024, 8, 1⟩ :=
  ⟨(claim_C3_espp_disposition_rules.1 ⟨2024, 2, 29⟩).1 (by decide),
   (claim_C3_espp_disposition_rules.1 ⟨2024, 5, 1⟩).2.1 (by decide) (by decide),
   (claim_C3_espp_disposition_rules.1 ⟨2024, 9, 1⟩).2.2 (by decide)⟩

/-- C4 is contradicted by the code: the code's own comment (and the spec)
say the qualifying ordinary income is min(15% of the OFFER-date FMV,
total gain), but the code computes the discount from the LOWER of the
offer-date and purchase-date prices. At offer price $100, purchase-date
price $50, 1 share bought at $42.50 and sold at $60 (a qualifying
disposition), the code reports ordinary income $7.50 where the documented
formula gives min($15, $17.50) = $15. -/
theorem claim_C4_qualifying_espp_eval :
    (calculate_espp_taxes tax_brackets_2025_single capital_gains_brackets_2025_single
        ⟨⟨2022, 9, 15⟩, ⟨2025, 1, 2⟩, 1, 60, 100, 50⟩ 300000).map
        (fun res => (res.is_qualifying, res.total_gain, res.ordinary_income_portion,
          res.capital_gain_portion, res.is_long_term)) =
      some (true, 35/2, 15/2, 10, true) ∧
    min ((15/100) * 100 * 1) (35/2 : ℚ) = 15 ∧ (15/2 : ℚ) ≠ 15 := by
  refine ⟨?_, by norm_num, by norm_num⟩
  norm_num [calculate_espp_taxes, get_tesla_offer_date, is_qualifying_espp_disposition,
    daysBetween, Date.toOrdinal, daysBeforeMonth, isLeapYear]

/-- C5 (with the negative-remainder clause corrected): for every
disqualifying ESPP disposition the ordinary-income portion is
(purchase-date FMV − ESPP purchase price) × shares with no cap at the
total gain, and the capital-gain remainder — classified long- or
short-term by the purchase-to-sale holding period — is clamped at zero,
never realized as a negative amount. -/
theorem claim_C5_disqualifying_espp (brackets cg_brackets : List (ℚ × ℚ))
    (inp : EsppInput) (ordinary_income : ℚ) (res : EsppResult)
    (hres : calculate_espp_taxes brackets cg_brackets inp ordinary_income = some res)
    (hdisq : is_qualifying_espp_disposition (get_tesla_offer_date inp.purchase_date)
      inp.purchase_date inp.sold_date = false) :
    res.ordinary_income_portion =
      (inp.purchase_date_price - min inp.offer_price inp.purchase_date_price * (85/100)) *
        inp.shares ∧
    res.capital_gain_portion = max 0 (res.total_gain - res.ordinary_income_portion) ∧
    0 ≤ res.capital_gain_portion ∧
    res.is_long_term = is_long_term inp.purchase_date inp.sold_date := by
  simp only [calculate_espp_taxes] at hres
  by_cases hp : inp.offer_price = 0 ∨ inp.purchase_date_price = 0
  · rw [if_pos hp] at hres
    exact absurd hres (by simp)
  · rw [if_neg hp] at hres
    rw [hdisq] at hres
    simp only [Bool.false_eq_true, if_false, Bool.false_or, Option.some.injEq] at hres
    cases hlt : is_long_term inp.purchase_date inp.sold_date with
    | false =>
      rw [hlt] at hres
      simp only [Bool.false_eq_true, if_false] at hres
      rw [← hres]
      exact ⟨rfl, rfl, le_max_left 0 _, rfl⟩
    | true =>
      rw [hlt] at hres
      simp only [if_true] at hres
      rw [← hres]
      exact ⟨rfl, rfl, le_max_left 0 _, rfl⟩

/-- Refutation of C5's negative-remainder clause at a concrete input:
offer price $50, purchase-date price $100, 1 share sold at $60 soon after
purchase (disqualifying). The ordinary portion $57.50 exceeds the total
gain $17.50, yet the recorded capital-gain remainder is 0, not −$40. -/
theorem claim_C5_counterexample :
    (calculate_espp_taxes tax_brackets_2025_single capital_gains_brackets_2025_single
        ⟨⟨2024, 9, 10⟩, ⟨2025, 3, 1⟩, 1, 60, 50, 100⟩ 300000).map
        (fun res => (res.is_qualifying, res.total_gain, res.ordinary_income_portion,
          res.capital_gain_portion)) =
      some (false, 35/2, 115/2, 0) ∧
    (35/2 : ℚ) < 115/2 ∧ ¬ ((0 : ℚ) < 0) := by
  refine ⟨?_, by norm_num, by norm_num⟩
  norm_num [calculate_espp_taxes, get_tesla_offer_date, is_qualifying_espp_disposition,
    daysBetween, Date.toOrdinal, daysBeforeMonth, isLeapYear, is_long_term]

/-- Witness for C5 at the concrete disqualifying input above. -/
theorem claim_C5_witness :
    (⟨⟨2024, 8, 1⟩, 85/2, 60, 35/2, false, false, "Disqualifying ESPP (ST Capital Gains)",
        161/8, 115/2, 0⟩ : EsppResult).ordinary_income_portion =
      (100 - min (50 : ℚ) 100 * (85/100)) * 1 ∧
    (0 : ℚ) ≤ (⟨⟨2024, 8, 1⟩, 85/2, 60, 35/2, false, false,
      "Disqualifying ESPP (ST Capital Gains)", 161/8, 115/2, 0⟩ : EsppResult).capital_gain_portion := by
  have h := claim_C5_disqualifying_espp tax_brackets_2025_single
    capital_gains_brackets_2025_single ⟨⟨2024, 9, 10⟩, ⟨2025, 3, 1⟩, 1, 60, 50, 100⟩ 300000
    ⟨⟨2024, 8, 1⟩, 85/2, 60, 35/2, false, false, "Disqualifying ESPP (ST Capital Gains)",
      161/8, 115/2, 0⟩
    (by norm_num [calculate_espp_taxes, get_tesla_offer_date, is_qualifying_espp_disposition,
      daysBetween, Date.toOrdinal, daysBeforeMonth, isLeapYear, is_long_term,
      calculate_marginal_tax_rate, calculate_capital_gains_rate,
      tax_brackets_2025_single, capital_gains_brackets_2025_single, List.find?])
    (by decide)
  exact ⟨h.1, h.2.2.1⟩

/-- C6 (with the boundary of the iff corrected): when an itemized result
is supplied, the itemized total is selected when it strictly exceeds the
standard deduction and the standard deduction is selected otherwise, with
the label "Standard (exceeds itemized)" in the latter case (at equality
the two amounts coincide, so "equals the itemized total iff it strictly
exceeds the standard deduction" fails as an iff on values); the deduction
then reduces ordinary income first, clamped at 0, and only its excess
beyond ordinary income reduces long-term gains, also clamped at 0. -/
theorem claim_C6_deduction_selection (cfg : TaxConfig) (w2 fed : ℚ)
    (stocks : List StockResult) (dAmt : Option ℚ) (est sWh intr : ℚ) (rent : Option ℚ)
    (it : ℚ) :
    (cfg.standard_deduction < it →
      (calculate_total_tax_liability cfg w2 fed stocks dAmt est sWh intr rent
        (some it)).deduction_amount = it ∧
      (calculate_total_tax_liability cfg w2 fed stocks dAmt est sWh intr rent
        (some it)).deduction_type = "Itemized") ∧
    (it ≤ cfg.standard_deduction →
      (calculate_total_tax_liability cfg w2 fed stocks dAmt est sWh intr rent
        (some it)).deduction_amount = cfg.standard_deduction ∧
      (calculate_total_tax_liability cfg w2 fed stocks dAmt est sWh intr rent
        (some it)).deduction_type = "Standard (exceeds itemized)") ∧
    (calculate_total_tax_liability cfg w2 fed stocks dAmt est sWh intr rent
        (some it)).taxable_ordinary_income =
      max 0 ((calculate_total_tax_liability cfg w2 fed stocks dAmt est sWh intr rent
          (some it)).total_ordinary_income -
        (calculate_total_tax_liability cfg w2 fed stocks dAmt est sWh intr rent
          (some it)).deduction_amount) ∧
    (calculate_total_tax_liability cfg w2 fed stocks dAmt est sWh intr rent
        (some it)).taxable_ltcg =
      max 0 ((calculate_total_tax_liability cfg w2 fed stocks dAmt est sWh intr rent
          (some it)).total_long_term_gains -
        max 0 ((calculate_total_tax_liability cfg w2 fed stocks dAmt est sWh intr rent
            (some it)).deduction_amount -
          (calculate_total_tax_liability cfg w2 fed stocks dAmt est sWh intr rent
            (some it)).total_ordinary_income)) := by
  refine ⟨fun hit => ?_, fun hit => ?_, rfl, rfl⟩
  · constructor <;> simp [calculate_total_tax_liability, hit]
  · constructor <;> simp [calculate_total_tax_liability, not_lt.mpr hit]

/-- Refutation of C6's iff at the boundary: with itemized total exactly
equal to the standard deduction ($15,000, 2025 single filer), the
deduction used equals the itemized total even though the itemized total
does not strictly exceed the standard deduction. -/
theorem claim_C6_counterexample :
    (calculate_total_tax_liability config_2025_single 0 0 [] none 0 0 0 none
        (some 15000)).deduction_amount = 15000 ∧
    (calculate_total_tax_liability config_2025_single 0 0 [] none 0 0 0 none
        (some 15000)).deduction_type = "Standard (exceeds itemized)" ∧
    ¬ config_2025_single.standard_deduction < 15000 := by
  refine ⟨?_, ?_, by norm_num [config_2025_single, standard_deduction_2025_single]⟩ <;>
    norm_num [calculate_total_tax_liability, config_2025_single, standard_deduction_2025_single]

/-- Witness for C6 at a concrete input on each side of the comparison. -/
theorem claim_C6_witness :
    ((calculate_total_tax_liability config_2025_single 0 0 [] none 0 0 0 none
        (some 20000)).deduction_amount = 20000 ∧
      (calculate_total_tax_liability config_2025_single 0 0 [] none 0 0 0 none
        (some 20000)).deduction_type = "Itemized") ∧
    ((calculate_total_tax_liability config_2025_single 0 0 [] none 0 0 0 none
        (some 12000)).deduction_amount = config_2025_single.standard_deduction ∧
      (calculate_total_tax_liability config_2025_single 0 0 [] none 0 0 0 none
        (some 12000)).deduction_type = "Standard (exceeds itemized)") :=
  ⟨(claim_C6_deduction_selection config_2025_single 0 0 [] none 0 0 0 none 20000).1
     (by norm_num [config_2025_single, standard_deduction_2025_single]),
   (claim_C6_deduction_selection config_2025_single 0 0 [] none 0 0 0 none 12000).2.1
     (by norm_num [config_2025_single, standard_deduction_2025_single])⟩

/-- C7: the NIIT surtax is min(max(0, AGI − threshold), net investment
income) × 0.038; the aggregator computes net investment income as
long-term gains + short-term gains + interest + max(0, net rental income)
and feeds it, with the AGI, to `calculate_niit`; and AGI $300,000 with
net investment income $50,000 against the $200,000 single-filer threshold
yields exactly $1,900.00. -/
theorem claim_C7_niit :
    (∀ thr agi nii : ℚ, calculate_niit thr agi nii = min (max 0 (agi - thr)) nii * (38/1000)) ∧
    (∀ (cfg : TaxConfig) (w2 fed : ℚ) (stocks : List StockResult) (dAmt : Option ℚ)
      (est sWh intr : ℚ) (rent item : Option ℚ),
      (calculate_total_tax_liability cfg w2 fed stocks dAmt est sWh intr rent item).niit =
        calculate_niit cfg.niit_threshold
          (calculate_total_tax_liability cfg w2 fed stocks dAmt est sWh intr rent item).agi
          (calculate_total_tax_liability cfg w2 fed stocks dAmt est sWh intr rent
            item).net_investment_income ∧
      (calculate_total_tax_liability cfg w2 fed stocks dAmt est sWh intr rent
          item).net_investment_income =
        (calculate_total_tax_liability cfg w2 fed stocks dAmt est sWh intr rent
            item).total_long_term_gains +
          (calculate_total_tax_liability cfg w2 fed stocks dAmt est sWh intr rent
            item).stock_short_term_gains +
          (calculate_total_tax_liability cfg w2 fed stocks dAmt est sWh intr rent
            item).interest_income +
          max 0 (calculate_total_tax_liability cfg w2 fed stocks dAmt est sWh intr rent
            item).net_rental_income) ∧
    calculate_niit niit_threshold_2025_single 300000 50000 = 1900 := by
  refine ⟨fun thr agi nii => rfl,
    fun cfg w2 fed stocks dAmt est sWh intr rent item => ⟨rfl, rfl⟩, ?_⟩
  norm_num [calculate_niit, niit_rate, niit_threshold_2025_single]

/-- C9: every record produced by the 1099-B loader carries
taxable gain = raw gain + wash-sale-disallowed exactly, in both its
`total_gain` and `capital_gain_portion` fields, and a non-negative
disallowed amount is added back, never subtracted. -/
theorem claim_C9_wash_sale_reconciliation (rows : List Row1099B) (res : StockResult)
    (hmem : res ∈ load_1099b_data rows) :
    res.total_gain = res.raw_gain + res.wash_sale_disallowed ∧
    res.capital_gain_portion = res.raw_gain + res.wash_sale_disallowed ∧
    (0 ≤ res.wash_sale_disallowed → res.raw_gain ≤ res.total_gain) := by
  simp only [load_1099b_data, List.mem_map] at hmem
  obtain ⟨row, _, rfl⟩ := hmem
  refine ⟨rfl, rfl, fun h => ?_⟩
  have h' : 0 ≤ row.wash_sale := h
  show row.gain_loss ≤ row.gain_loss + row.wash_sale
  linarith

/-- Witness for C9 on one concrete 1099-B row with a $25 wash-sale
disallowance on a $600 realized gain. -/
theorem claim_C9_witness :
    (load_1099b_row ⟨"Long Term", ⟨2025, 1, 2⟩, ⟨2023, 1, 2⟩, 1000, 400, 25, 600,
        "R123", 10, "D"⟩).total_gain =
      (load_1099b_row ⟨"Long Term", ⟨2025, 1, 2⟩, ⟨2023, 1, 2⟩, 1000, 400, 25, 600,
        "R123", 10, "D"⟩).raw_gain +
      (load_1099b_row ⟨"Long Term", ⟨2025, 1, 2⟩, ⟨2023, 1, 2⟩, 1000, 400, 25, 600,
        "R123", 10, "D"⟩).wash_sale_disallowed ∧
    (load_1099b_row ⟨"Long Term", ⟨2025, 1, 2⟩, ⟨2023, 1, 2⟩, 1000, 400, 25, 600,
        "R123", 10, "D"⟩).raw_gain ≤
      (load_1099b_row ⟨"Long Term", ⟨2025, 1, 2⟩, ⟨2023, 1, 2⟩, 1000, 400, 25, 600,
        "R123", 10, "D"⟩).total_gain := by
  have h := claim_C9_wash_sale_reconciliation
    [⟨"Long Term", ⟨2025, 1, 2⟩, ⟨2023, 1, 2⟩, 1000, 400, 25, 600, "R123", 10, "D"⟩]
    (load_1099b_row ⟨"Long Term", ⟨2025, 1, 2⟩, ⟨2023, 1, 2⟩, 1000, 400, 25, 600,
      "R123", 10, "D"⟩)
    (by simp [load_1099b_data])
  exact ⟨h.1, h.2.2 (by norm_num [load_1099b_row])⟩

/-- C10 (with strictness corrected): when no itemized result is supplied
and a deduction override is given, that amount is used unconditionally
and labeled "Itemized", never compared against the standard deduction;
consequently an override below the standard deduction yields a total
taxable income at least as high as under the standard deduction (equality
is possible, e.g. when there is no income at all, so "strictly higher"
fails). -/
theorem claim_C10_deduction_override :
    (∀ (cfg : TaxConfig) (w2 fed : ℚ) (stocks : List StockResult) (d est sWh intr : ℚ)
      (rent : Option ℚ),
      (calculate_total_tax_liability cfg w2 fed stocks (some d) est sWh intr rent
        none).deduction_amount = d ∧
      (calculate_total_tax_liability cfg w2 fed stocks (some d) est sWh intr rent
        none).deduction_type = "Itemized") ∧
    (∀ (cfg : TaxConfig) (w2 fed : ℚ) (stocks : List StockResult) (d est sWh intr : ℚ)
      (rent : Option ℚ), d < cfg.standard_deduction →
      (calculate_total_tax_liability cfg w2 fed stocks none est sWh intr rent
          none).total_taxable_income ≤
        (calculate_total_tax_liability cfg w2 fed stocks (some d) est sWh intr rent
          none).total_taxable_income) := by
  constructor
  · intro cfg w2 fed stocks d est sWh intr rent
    exact ⟨rfl, rfl⟩
  · intro cfg w2 fed stocks d est sWh intr rent hd
    simp only [calculate_total_tax_liability]
    exact taxable_income_antitone _ _ d cfg.standard_deduction (le_of_lt hd)

/-- Refutation of C10's strict inequality: with no income at all and an
override of $100 (below the $15,000 standard deduction), the total
taxable income equals the one under the standard deduction instead of
exceeding it. -/
theorem claim_C10_counterexample :
    (calculate_total_tax_liability config_2025_single 0 0 [] (some 100) 0 0 0 none
        none).deduction_amount = 100 ∧
    (calculate_total_tax_liability config_2025_single 0 0 [] (some 100) 0 0 0 none
        none).deduction_type = "Itemized" ∧
    (100 : ℚ) < config_2025_single.standard_deduction ∧
    (calculate_total_tax_liability config_2025_single 0 0 [] (some 100) 0 0 0 none
        none).total_taxable_income =
      (calculate_total_tax_liability config_2025_single 0 0 [] none 0 0 0 none
        none).total_taxable_income := by
  refine ⟨rfl, rfl, by norm_num [config_2025_single, standard_deduction_2025_single], ?_⟩
  norm_num [calculate_total_tax_liability, config_2025_single, standard_deduction_2025_single]

/-- Witness for C10 with W-2 wages $40,000 and an override of $100. -/
theorem claim_C10_witness :
    (calculate_total_tax_liability config_2025_single 40000 0 [] none 0 0 0 none
        none).total_taxable_income ≤
      (calculate_total_tax_liability config_2025_single 40000 0 [] (some 100) 0 0 0 none
        none).total_taxable_income :=
  claim_C10_deduction_override.2 config_2025_single 40000 0 [] 100 0 0 0 none
    (by norm_num [config_2025_single, standard_deduction_2025_single])

end TaxTool
